import Mathlib

/-!
Verification of the TMC4671 SPI register-access driver.

Shallow embedding of `src/lib.rs`:

* `Datagram`, `Datagram.parse`, `Datagram.bytes` embed the frame codec in
  module `spi`.  Bytes are `Nat` values below 256, a `u32` is a `Nat` below
  `2 ^ 32`; buffers are lists of bytes.
* The SPI transport (`embedded_hal::spi::SpiDevice::transfer_in_place`) is
  embedded as a function from the history of previously sent buffers and the
  current outgoing buffer to either an `ErrorKind` or the received bytes.
  Driver operations additionally thread the list of sent buffers, so that
  theorems can speak about how many exchanges happen and in which order.
* `Tmc4671.transfer_datagram`, `Tmc4671.read_register`,
  `Tmc4671.write_register` and `Tmc4671.get_chip_info` embed the register
  transaction engine.
-/

/-- Big-endian byte decomposition of a 32-bit value, embedding
`u32::to_be_bytes` (most significant byte first). -/
def toBeBytes (d : Nat) : List Nat :=
  [d / 2 ^ 24 % 256, d / 2 ^ 16 % 256, d / 2 ^ 8 % 256, d % 256]

/-- Big-endian 32-bit composition of four octets, embedding
`nom::number::streaming::be_u32` applied to four octets. -/
def beU32 (b1 b2 b3 b4 : Nat) : Nat :=
  b1 * 2 ^ 24 + b2 * 2 ^ 16 + b3 * 2 ^ 8 + b4

/-- `spi::ADDR_WRITE_BIT = 0b1000_0000`. -/
def ADDR_WRITE_BIT : Nat := 128

/-- `spi::Datagram`: `write_not_read : bool`, `address : u8`, `data : u32`. -/
structure Datagram where
  write_not_read : Bool
  address : Nat
  data : Nat
deriving DecidableEq

/-- `spi::Datagram::parse`: `nom::number::streaming::u8` followed by
`nom::number::streaming::be_u32`; both are streaming parsers, so the parse
fails (nom `Incomplete`, mapped to `.error ()` here) exactly when fewer than
five octets are available.  `!ADDR_WRITE_BIT` on `u8` is `0b0111_1111 = 127`. -/
def Datagram.parse (input : List Nat) : Except Unit (List Nat × Datagram) :=
  match input with
  | b0 :: b1 :: b2 :: b3 :: b4 :: tail =>
    .ok (tail,
      { write_not_read := (b0 &&& ADDR_WRITE_BIT) != 0
        address := b0 &&& 127
        data := beU32 b1 b2 b3 b4 })
  | _ => .error ()

/-- `spi::Datagram::bytes`: byte 0 is the address field copied verbatim, with
`ADDR_WRITE_BIT` OR-ed in when `write_not_read`; bytes 1..4 are
`data.to_be_bytes()`. -/
def Datagram.bytes (d : Datagram) : List Nat :=
  (if d.write_not_read then d.address ||| ADDR_WRITE_BIT else d.address)
    :: toBeBytes d.data

/-- `spi::registers::CHIPINFO_DATA`. -/
def CHIPINFO_DATA : Nat := 0x00

/-- `spi::registers::CHIPINFO_ADDR`. -/
def CHIPINFO_ADDR : Nat := 0x01

/-- `spi::constants::CHIP_INFO_ADDRESS`. -/
inductive CHIP_INFO_ADDRESS where
  | SI_TYPE
  | SI_VERSION
  | SI_DATE
  | SI_TIME
  | SI_VARIANT
  | SI_BUIlD
deriving DecidableEq

/-- The `repr(u32)` discriminants of `CHIP_INFO_ADDRESS` (`info as u32`). -/
def CHIP_INFO_ADDRESS.toU32 : CHIP_INFO_ADDRESS → Nat
  | .SI_TYPE => 0x00
  | .SI_VERSION => 0x01
  | .SI_DATE => 0x02
  | .SI_TIME => 0x03
  | .SI_VARIANT => 0x04
  | .SI_BUIlD => 0x05

/-- `embedded_hal::spi::ErrorKind` (the transport's failure classification). -/
inductive ErrorKind where
  | Overrun
  | ModeFault
  | FrameFormat
  | ChipSelectFault
  | Other
deriving DecidableEq

/-- `Tmc4671Error`. -/
inductive Tmc4671Error where
  | ParseError
  | CommunicationError (kind : ErrorKind)
deriving DecidableEq

/-- A wire buffer: a list of octets. -/
abbrev Buffer := List Nat

/-- The SPI transport: given the history of buffers sent so far and the
outgoing buffer, it either fails with an `ErrorKind` or yields the bytes
received during the same full-duplex exchange (`transfer_in_place` replaces
the buffer's contents with them). -/
abbrev SpiDevice := List Buffer → Buffer → Except ErrorKind Buffer

/-- `Tmc4671::transfer_datagram`: encode, one in-place exchange (appended to
the history), map transport failure to `CommunicationError`, parse the
received bytes, map parse failure to `ParseError`.  The disabled
`debug_assert_eq!(datagram.address, received_datagram.address)` is a comment
in the source and does not execute. -/
def Tmc4671.transfer_datagram (spi_device : SpiDevice) (hist : List Buffer)
    (datagram : Datagram) : List Buffer × Except Tmc4671Error Datagram :=
  let buffer := datagram.bytes
  match spi_device hist buffer with
  | .error err => (hist ++ [buffer], .error (.CommunicationError err))
  | .ok received =>
    match Datagram.parse received with
    | .error _ => (hist ++ [buffer], .error .ParseError)
    | .ok (_, received_datagram) => (hist ++ [buffer], .ok received_datagram)

/-- `Tmc4671::read_register`: read frame with zero payload, one transfer,
return the received datagram's `data` field. -/
def Tmc4671.read_register (spi_device : SpiDevice) (hist : List Buffer)
    (register : Nat) : List Buffer × Except Tmc4671Error Nat :=
  let datagram : Datagram :=
    { write_not_read := false, address := register, data := 0x00000000 }
  match Tmc4671.transfer_datagram spi_device hist datagram with
  | (hist2, .error e) => (hist2, .error e)
  | (hist2, .ok received_datagram) => (hist2, .ok received_datagram.data)

/-- `Tmc4671::write_register`: write frame with the given payload, one
transfer, the received datagram is discarded. -/
def Tmc4671.write_register (spi_device : SpiDevice) (hist : List Buffer)
    (register : Nat) (data : Nat) : List Buffer × Except Tmc4671Error Unit :=
  let datagram : Datagram :=
    { write_not_read := true, address := register, data := data }
  match Tmc4671.transfer_datagram spi_device hist datagram with
  | (hist2, .error e) => (hist2, .error e)
  | (hist2, .ok _) => (hist2, .ok ())

/-- `Tmc4671::get_chip_info`: write the selector code to `CHIPINFO_ADDR`
(the `?` operator propagates its failure), then read `CHIPINFO_DATA`. -/
def Tmc4671.get_chip_info (spi_device : SpiDevice) (hist : List Buffer)
    (info : CHIP_INFO_ADDRESS) : List Buffer × Except Tmc4671Error Nat :=
  match Tmc4671.write_register spi_device hist CHIPINFO_ADDR info.toU32 with
  | (hist2, .error e) => (hist2, .error e)
  | (hist2, .ok _) => Tmc4671.read_register spi_device hist2 CHIPINFO_DATA

/-- A transport that always succeeds and always answers with `r`. -/
def devConst (r : Buffer) : SpiDevice := fun _ _ => .ok r

/-- A transport that always fails with kind `k`. -/
def devFail (k : ErrorKind) : SpiDevice := fun _ _ => .error k

/-- A transport that answers `r1` to the first exchange and `r2` to all
later ones. -/
def devTwoStep (r1 r2 : Buffer) : SpiDevice := fun h _ =>
  match h with
  | [] => .ok r1
  | _ => .ok r2

theorem and_127_eq_mod (a : Nat) : a &&& 127 = a % 128 := by
  have h := Nat.and_pow_two_sub_one_eq_mod a 7
  norm_num at h
  exact h

theorem and_128_of_lt (a : Nat) (h : a < 128) : a &&& 128 = 0 := by
  have h2 := Nat.and_two_pow a 7
  have h3 : a.testBit 7 = false := Nat.testBit_lt_two_pow (by norm_num; omega)
  rw [h3] at h2
  simpa using h2

theorem and_128_of_ge (a : Nat) (h1 : 128 ≤ a) (h2 : a < 256) :
    a &&& 128 = 128 := by
  have h3 := Nat.and_two_pow a 7
  have h4 : a.testBit 7 = true := by
    rw [Nat.testBit_to_div_mod]
    norm_num
    omega
  rw [h4] at h3
  simpa using h3

theorem or_128_of_lt (a : Nat) (h : a < 128) : a ||| 128 = a + 128 := by
  have h2 := Nat.mul_add_lt_is_or (show a < 2 ^ 7 by omega) 1
  norm_num at h2
  rw [Nat.or_comm]
  omega

theorem beU32_toBeBytes (d : Nat) (h : d < 2 ^ 32) :
    beU32 (d / 2 ^ 24 % 256) (d / 2 ^ 16 % 256) (d / 2 ^ 8 % 256) (d % 256)
      = d := by
  unfold beU32
  omega

theorem parse_ok_of_length (r : Buffer) (h : 5 ≤ r.length) :
    ∃ d, Datagram.parse r = .ok (r.drop 5, d) := by
  rcases r with _ | ⟨b0, _ | ⟨b1, _ | ⟨b2, _ | ⟨b3, _ | ⟨b4, tail⟩⟩⟩⟩⟩ <;>
    simp only [List.length_nil, List.length_cons] at h
  · omega
  · omega
  · omega
  · omega
  · omega
  · exact ⟨_, rfl⟩

theorem transfer_datagram_log (dev : SpiDevice) (hist : List Buffer)
    (d : Datagram) :
    (Tmc4671.transfer_datagram dev hist d).1 = hist ++ [d.bytes] := by
  unfold Tmc4671.transfer_datagram
  cases h : dev hist d.bytes with
  | error k => simp [h]
  | ok r =>
    cases hp : Datagram.parse r with
    | error e => simp [h, hp]
    | ok p =>
      obtain ⟨rest, rd⟩ := p
      simp [h, hp]

theorem transfer_datagram_ok (dev : SpiDevice) (hist : List Buffer)
    (d : Datagram) (r : Buffer) (rest : List Nat) (rd : Datagram)
    (h : dev hist d.bytes = .ok r)
    (hp : Datagram.parse r = .ok (rest, rd)) :
    Tmc4671.transfer_datagram dev hist d = (hist ++ [d.bytes], .ok rd) := by
  unfold Tmc4671.transfer_datagram
  simp [h, hp]

theorem transfer_datagram_err (dev : SpiDevice) (hist : List Buffer)
    (d : Datagram) (k : ErrorKind)
    (h : dev hist d.bytes = .error k) :
    Tmc4671.transfer_datagram dev hist d
      = (hist ++ [d.bytes], .error (.CommunicationError k)) := by
  unfold Tmc4671.transfer_datagram
  simp [h]

/-- Claim C1: for every frame whose address fits in 7 bits and whose payload
fits in 32 bits, parsing the 5-byte encoding yields the frame back with an
empty remainder. -/
theorem c1_parse_bytes_roundtrip (d : Datagram) (haddr : d.address ≤ 127)
    (hdata : d.data < 2 ^ 32) :
    Datagram.parse (Datagram.bytes d) = .ok ([], d) := by
  obtain ⟨wnr, addr, data⟩ := d
  simp only at haddr hdata
  have hdata' := beU32_toBeBytes data hdata
  cases wnr with
  | false =>
    simp only [Datagram.bytes, toBeBytes, ADDR_WRITE_BIT, if_neg,
      Bool.false_eq_true, not_false_iff, Datagram.parse, Except.ok.injEq,
      Prod.mk.injEq, Datagram.mk.injEq, true_and]
    refine ⟨?_, ?_, hdata'⟩
    · simp [and_128_of_lt addr (by omega)]
    · rw [and_127_eq_mod]
      omega
  | true =>
    simp only [Datagram.bytes, toBeBytes, ADDR_WRITE_BIT, if_pos,
      Datagram.parse, Except.ok.injEq, Prod.mk.injEq, Datagram.mk.injEq,
      true_and]
    rw [or_128_of_lt addr (by omega)]
    refine ⟨?_, ?_, hdata'⟩
    · simp [and_128_of_ge (addr + 128) (by omega) (by omega)]
    · rw [and_127_eq_mod]
      omega

/-- Claim C2: for every frame with a 7-bit address, `bytes` yields exactly
five octets, byte 0 carrying the address in bits 0..6 with bit 7 set exactly
when `write_not_read`, and bytes 1..4 the payload most-significant byte
first; payload `0x01020304` encodes to `[addr_byte, 1, 2, 3, 4]`. -/
theorem c2_bytes_layout (d : Datagram) (haddr : d.address ≤ 127) :
    (Datagram.bytes d).length = 5 ∧
    Datagram.bytes d
      = (d.address + (if d.write_not_read then 128 else 0))
        :: [d.data / 2 ^ 24 % 256, d.data / 2 ^ 16 % 256,
            d.data / 2 ^ 8 % 256, d.data % 256] ∧
    (d.data = 0x01020304 →
      Datagram.bytes d
        = [d.address + (if d.write_not_read then 128 else 0), 1, 2, 3, 4]) := by
  obtain ⟨wnr, addr, data⟩ := d
  simp only at haddr
  have hmain : Datagram.bytes ⟨wnr, addr, data⟩
      = (addr + (if wnr then 128 else 0))
        :: [data / 2 ^ 24 % 256, data / 2 ^ 16 % 256,
            data / 2 ^ 8 % 256, data % 256] := by
    cases wnr with
    | false => simp [Datagram.bytes, toBeBytes]
    | true =>
      simp only [Datagram.bytes, toBeBytes, ADDR_WRITE_BIT, if_pos]
      rw [or_128_of_lt addr (by omega)]
  refine ⟨by rw [hmain]; rfl, hmain, ?_⟩
  intro hdata
  simp only at hdata
  subst hdata
  rw [hmain]
  norm_num

/-- Claim C3: parsing any buffer of five or more octets takes the direction
from bit 7 of byte 0, the address from bits 0..6 of byte 0 only (so the
decoded address is always at most 127), and the payload from bytes 1..4
big-endian. -/
theorem c3_parse_fields (b0 b1 b2 b3 b4 : Nat) (tail : List Nat)
    (hb0 : b0 < 256) :
    ∃ d, Datagram.parse (b0 :: b1 :: b2 :: b3 :: b4 :: tail) = .ok (tail, d) ∧
      (d.write_not_read = true ↔ 128 ≤ b0) ∧
      d.address = b0 % 128 ∧
      d.address ≤ 127 ∧
      d.data = b1 * 2 ^ 24 + b2 * 2 ^ 16 + b3 * 2 ^ 8 + b4 := by
  refine ⟨_, rfl, ?_, ?_, ?_, rfl⟩
  · simp only [ADDR_WRITE_BIT, bne_iff_ne, ne_eq]
    rcases Nat.lt_or_ge b0 128 with h | h
    · rw [and_128_of_lt b0 h]
      simp
      omega
    · rw [and_128_of_ge b0 h hb0]
      simp
      omega
  · simp only
    exact and_127_eq_mod b0
  · simp only
    rw [and_127_eq_mod]
    omega

/-- Claim C4: parsing fails exactly on buffers shorter than five octets; on
longer buffers it succeeds, consumes exactly the first five octets, and the
decoded frame depends only on them. -/
theorem c4_parse_length (input : List Nat) :
    (input.length < 5 → Datagram.parse input = .error ()) ∧
    (5 ≤ input.length →
      ∃ d, Datagram.parse (input.take 5) = .ok ([], d) ∧
        Datagram.parse input = .ok (input.drop 5, d)) := by
  rcases input with _ | ⟨b0, _ | ⟨b1, _ | ⟨b2, _ | ⟨b3, _ | ⟨b4, tail⟩⟩⟩⟩⟩ <;>
    constructor <;>
    simp only [List.length_nil, List.length_cons] <;>
    intro h
  · rfl
  · omega
  · rfl
  · omega
  · rfl
  · omega
  · rfl
  · omega
  · rfl
  · omega
  · omega
  · exact ⟨_, rfl, rfl⟩

theorem read_register_log (dev : SpiDevice) (hist : List Buffer) (A : Nat) :
    (Tmc4671.read_register dev hist A).1
      = hist ++ [Datagram.bytes ⟨false, A, 0⟩] := by
  have hl := transfer_datagram_log dev hist ⟨false, A, 0⟩
  rcases h : Tmc4671.transfer_datagram dev hist ⟨false, A, 0⟩ with ⟨h2, res⟩
  rw [h] at hl
  cases res <;> simp_all [Tmc4671.read_register]

theorem write_register_log (dev : SpiDevice) (hist : List Buffer) (A V : Nat) :
    (Tmc4671.write_register dev hist A V).1
      = hist ++ [Datagram.bytes ⟨true, A, V⟩] := by
  have hl := transfer_datagram_log dev hist ⟨true, A, V⟩
  rcases h : Tmc4671.transfer_datagram dev hist ⟨true, A, V⟩ with ⟨h2, res⟩
  rw [h] at hl
  cases res <;> simp_all [Tmc4671.write_register]

/-- Claim C5: `read_register A` performs exactly one exchange, whose outgoing
bytes are the encoding of the read frame for `A` with zero payload; when the
transport succeeds and the reply decodes, it returns the decoded reply's
payload. -/
theorem c5_read_register (dev : SpiDevice) (hist : List Buffer) (A : Nat) :
    (Tmc4671.read_register dev hist A).1
      = hist ++ [Datagram.bytes ⟨false, A, 0⟩] ∧
    ∀ received rest rd,
      dev hist (Datagram.bytes ⟨false, A, 0⟩) = .ok received →
      Datagram.parse received = .ok (rest, rd) →
      (Tmc4671.read_register dev hist A).2 = .ok rd.data := by
  refine ⟨read_register_log dev hist A, ?_⟩
  intro received rest rd hok hp
  have ht := transfer_datagram_ok dev hist ⟨false, A, 0⟩ received rest rd hok hp
  simp [Tmc4671.read_register, ht]

/-- Claim C6: `write_register A V` performs one exchange sending the encoding
of the write frame for `A` with payload `V`, and on transport success it
returns `ok ()` whatever the received five-byte buffer holds. -/
theorem c6_write_register (dev : SpiDevice) (hist : List Buffer) (A V : Nat) :
    (Tmc4671.write_register dev hist A V).1
      = hist ++ [Datagram.bytes ⟨true, A, V⟩] ∧
    ∀ received, dev hist (Datagram.bytes ⟨true, A, V⟩) = .ok received →
      5 ≤ received.length →
      (Tmc4671.write_register dev hist A V).2 = .ok () := by
  refine ⟨write_register_log dev hist A V, ?_⟩
  intro received hok hlen
  obtain ⟨rd, hp⟩ := parse_ok_of_length received hlen
  have ht := transfer_datagram_ok dev hist ⟨true, A, V⟩ received _ rd hok hp
  simp [Tmc4671.write_register, ht]

/-- Claim C7: `get_chip_info` performs exactly two exchanges in order — the
write of the selector code to `CHIPINFO_ADDR`, then the read of
`CHIPINFO_DATA` — and returns the decoded payload of the second exchange. -/
theorem c7_get_chip_info (dev : SpiDevice) (hist : List Buffer)
    (info : CHIP_INFO_ADDRESS) (r1 r2 : Buffer)
    (h1 : dev hist (Datagram.bytes ⟨true, CHIPINFO_ADDR, info.toU32⟩) = .ok r1)
    (hl1 : 5 ≤ r1.length)
    (h2 : dev (hist ++ [Datagram.bytes ⟨true, CHIPINFO_ADDR, info.toU32⟩])
            (Datagram.bytes ⟨false, CHIPINFO_DATA, 0⟩) = .ok r2)
    (hl2 : 5 ≤ r2.length) :
    (Tmc4671.get_chip_info dev hist info).1
      = hist ++ [Datagram.bytes ⟨true, CHIPINFO_ADDR, info.toU32⟩,
                 Datagram.bytes ⟨false, CHIPINFO_DATA, 0⟩] ∧
    ∃ d, Datagram.parse r2 = .ok (r2.drop 5, d) ∧
      (Tmc4671.get_chip_info dev hist info).2 = .ok d.data := by
  obtain ⟨rd1, hp1⟩ := parse_ok_of_length r1 hl1
  obtain ⟨rd2, hp2⟩ := parse_ok_of_length r2 hl2
  have hw := transfer_datagram_ok dev hist ⟨true, CHIPINFO_ADDR, info.toU32⟩
    r1 _ rd1 h1 hp1
  have hr := transfer_datagram_ok dev
    (hist ++ [Datagram.bytes ⟨true, CHIPINFO_ADDR, info.toU32⟩])
    ⟨false, CHIPINFO_DATA, 0⟩ r2 _ rd2 h2 hp2
  refine ⟨?_, rd2, hp2, ?_⟩ <;>
    simp [Tmc4671.get_chip_info, Tmc4671.write_register,
      Tmc4671.read_register, hw, hr]

/-- Claim C8: a transport failure makes each of `read_register`,
`write_register` and `get_chip_info` return `CommunicationError` with the
transport's kind, after exactly the one failed exchange — in particular a
failure of `get_chip_info`'s first exchange means the second is never
issued. -/
theorem c8_transport_failure (dev : SpiDevice) (hist : List Buffer)
    (A V : Nat) (info : CHIP_INFO_ADDRESS) (k : ErrorKind) :
    (dev hist (Datagram.bytes ⟨false, A, 0⟩) = .error k →
      Tmc4671.read_register dev hist A
        = (hist ++ [Datagram.bytes ⟨false, A, 0⟩],
           .error (.CommunicationError k))) ∧
    (dev hist (Datagram.bytes ⟨true, A, V⟩) = .error k →
      Tmc4671.write_register dev hist A V
        = (hist ++ [Datagram.bytes ⟨true, A, V⟩],
           .error (.CommunicationError k))) ∧
    (dev hist (Datagram.bytes ⟨true, CHIPINFO_ADDR, info.toU32⟩) = .error k →
      Tmc4671.get_chip_info dev hist info
        = (hist ++ [Datagram.bytes ⟨true, CHIPINFO_ADDR, info.toU32⟩],
           .error (.CommunicationError k))) := by
  refine ⟨?_, ?_, ?_⟩ <;> intro h
  · have ht := transfer_datagram_err dev hist ⟨false, A, 0⟩ k h
    simp [Tmc4671.read_register, ht]
  · have ht := transfer_datagram_err dev hist ⟨true, A, V⟩ k h
    simp [Tmc4671.write_register, ht]
  · have ht := transfer_datagram_err dev hist ⟨true, CHIPINFO_ADDR, info.toU32⟩
      k h
    simp [Tmc4671.get_chip_info, Tmc4671.write_register, ht]

/-- Claim C9: the transfer primitive performs no request/response
correlation: on transport success it returns the decoded reply
unconditionally, for every request frame and every received five-byte
buffer (also when the reply's decoded address differs from the request's),
and never produces an unexpected-reply error. -/
theorem c9_no_correlation (dev : SpiDevice) (hist : List Buffer)
    (d : Datagram) (received : Buffer)
    (hok : dev hist d.bytes = .ok received) (hlen : 5 ≤ received.length) :
    ∃ rd, Datagram.parse received = .ok (received.drop 5, rd) ∧
      (Tmc4671.transfer_datagram dev hist d).2 = .ok rd := by
  obtain ⟨rd, hp⟩ := parse_ok_of_length received hlen
  exact ⟨rd, hp,
    by rw [transfer_datagram_ok dev hist d received _ rd hok hp]⟩

/-- Claim C10: the address is never masked to 7 bits: `bytes` copies the
8-bit address field verbatim into byte 0, so a Read frame with address
`A ≥ 128` has bit 7 of byte 0 set and decodes as a Write frame with address
`A - 128`; `read_register A` transmits exactly that frame. -/
theorem c10_no_address_masking (A data : Nat) (h1 : 128 ≤ A) (h2 : A < 256)
    (hdata : data < 2 ^ 32) (dev : SpiDevice) (hist : List Buffer) :
    Datagram.bytes ⟨false, A, data⟩ = A :: toBeBytes data ∧
    Datagram.parse (Datagram.bytes ⟨false, A, data⟩)
      = .ok ([], ⟨true, A - 128, data⟩) ∧
    (Tmc4671.read_register dev hist A).1
      = hist ++ [Datagram.bytes ⟨false, A, 0⟩] := by
  refine ⟨rfl, ?_, read_register_log dev hist A⟩
  have hdata' := beU32_toBeBytes data hdata
  simp only [Datagram.bytes, toBeBytes, ADDR_WRITE_BIT, Bool.false_eq_true,
    if_false, Datagram.parse, Except.ok.injEq, Prod.mk.injEq,
    Datagram.mk.injEq, true_and]
  refine ⟨?_, ?_, hdata'⟩
  · simp [and_128_of_ge A h1 h2]
  · rw [and_127_eq_mod]
    omega

/-- Witness for C1 at the frame `(Write, 5, 0xDEADBEEF)`. -/
theorem c1_witness :
    Datagram.parse (Datagram.bytes ⟨true, 5, 3735928559⟩)
      = .ok ([], ⟨true, 5, 3735928559⟩) :=
  c1_parse_bytes_roundtrip ⟨true, 5, 3735928559⟩ (by decide) (by decide)

/-- Witness for C2: the frame `(Write, 0x23, 0x01020304)` encodes to
`[0xA3, 1, 2, 3, 4]`. -/
theorem c2_witness :
    Datagram.bytes ⟨true, 35, 16909060⟩ = [163, 1, 2, 3, 4] := by
  have h := (c2_bytes_layout ⟨true, 35, 16909060⟩ (by decide)).2.2 rfl
  norm_num at h
  exact h

/-- Witness for C3 at the five-byte buffer `[0x85, 1, 2, 3, 4]`. -/
theorem c3_witness :
    ∃ d, Datagram.parse [133, 1, 2, 3, 4] = .ok ([], d) ∧
      (d.write_not_read = true ↔ 128 ≤ 133) ∧
      d.address = 133 % 128 ∧
      d.address ≤ 127 ∧
      d.data = 1 * 2 ^ 24 + 2 * 2 ^ 16 + 3 * 2 ^ 8 + 4 :=
  c3_parse_fields 133 1 2 3 4 [] (by decide)

/-- Witness for C4 on an under-length and an over-length buffer. -/
theorem c4_witness :
    Datagram.parse [1, 2] = .error () ∧
    ∃ d, Datagram.parse ([1, 2, 3, 4, 5, 6].take 5) = .ok ([], d) ∧
      Datagram.parse [1, 2, 3, 4, 5, 6]
        = .ok ([1, 2, 3, 4, 5, 6].drop 5, d) :=
  ⟨(c4_parse_length [1, 2]).1 (by decide),
   (c4_parse_length [1, 2, 3, 4, 5, 6]).2 (by decide)⟩

/-- Witness for C5: a reply `[5, 1, 2, 3, 4]` makes `read_register 3`
return payload `0x01020304`. -/
theorem c5_witness :
    (Tmc4671.read_register (devConst [5, 1, 2, 3, 4]) [] 3).2
      = .ok 16909060 :=
  (c5_read_register (devConst [5, 1, 2, 3, 4]) [] 3).2 [5, 1, 2, 3, 4] []
    ⟨false, 5, 16909060⟩ rfl rfl

/-- Witness for C6. -/
theorem c6_witness :
    (Tmc4671.write_register (devConst [9, 9, 9, 9, 9]) [] 2 7).2 = .ok () :=
  (c6_write_register (devConst [9, 9, 9, 9, 9]) [] 2 7).2 [9, 9, 9, 9, 9]
    rfl (by decide)

/-- Witness for C7 with a device answering `[0, 170, 187, 204, 221]` to the
second exchange. -/
theorem c7_witness :
    (Tmc4671.get_chip_info
        (devTwoStep [0, 0, 0, 0, 0] [0, 170, 187, 204, 221]) []
        CHIP_INFO_ADDRESS.SI_TYPE).1
      = [Datagram.bytes
           ⟨true, CHIPINFO_ADDR, CHIP_INFO_ADDRESS.SI_TYPE.toU32⟩,
         Datagram.bytes ⟨false, CHIPINFO_DATA, 0⟩] ∧
    ∃ d, Datagram.parse [0, 170, 187, 204, 221]
        = .ok (([0, 170, 187, 204, 221] : Buffer).drop 5, d) ∧
      (Tmc4671.get_chip_info
          (devTwoStep [0, 0, 0, 0, 0] [0, 170, 187, 204, 221]) []
          CHIP_INFO_ADDRESS.SI_TYPE).2 = .ok d.data :=
  c7_get_chip_info (devTwoStep [0, 0, 0, 0, 0] [0, 170, 187, 204, 221]) []
    CHIP_INFO_ADDRESS.SI_TYPE [0, 0, 0, 0, 0] [0, 170, 187, 204, 221]
    rfl (by decide) rfl (by decide)

/-- Witness for C8 on an always-failing transport. -/
theorem c8_witness :
    Tmc4671.read_register (devFail .Other) [] 3
      = ([Datagram.bytes ⟨false, 3, 0⟩],
         .error (.CommunicationError .Other)) ∧
    Tmc4671.write_register (devFail .Other) [] 3 7
      = ([Datagram.bytes ⟨true, 3, 7⟩],
         .error (.CommunicationError .Other)) ∧
    Tmc4671.get_chip_info (devFail .Other) [] CHIP_INFO_ADDRESS.SI_TYPE
      = ([Datagram.bytes
            ⟨true, CHIPINFO_ADDR, CHIP_INFO_ADDRESS.SI_TYPE.toU32⟩],
         .error (.CommunicationError .Other)) :=
  ⟨(c8_transport_failure (devFail .Other) [] 3 7
      CHIP_INFO_ADDRESS.SI_TYPE .Other).1 rfl,
   (c8_transport_failure (devFail .Other) [] 3 7
      CHIP_INFO_ADDRESS.SI_TYPE .Other).2.1 rfl,
   (c8_transport_failure (devFail .Other) [] 3 7
      CHIP_INFO_ADDRESS.SI_TYPE .Other).2.2 rfl⟩

/-- Witness for C9: a request to address 3 answered by a reply that decodes
to address 7 is still returned as-is. -/
theorem c9_witness :
    ∃ rd, Datagram.parse [7, 0, 0, 0, 42]
        = .ok (([7, 0, 0, 0, 42] : Buffer).drop 5, rd) ∧
      (Tmc4671.transfer_datagram (devConst [7, 0, 0, 0, 42]) []
          ⟨false, 3, 0⟩).2 = .ok rd :=
  c9_no_correlation (devConst [7, 0, 0, 0, 42]) [] ⟨false, 3, 0⟩
    [7, 0, 0, 0, 42] rfl (by decide)

/-- Witness for C10 at address `0xCB = 203`: the read frame decodes as a
write to register 75. -/
theorem c10_witness :
    Datagram.bytes ⟨false, 203, 0⟩ = 203 :: toBeBytes 0 ∧
    Datagram.parse (Datagram.bytes ⟨false, 203, 0⟩)
      = .ok ([], ⟨true, 75, 0⟩) ∧
    (Tmc4671.read_register (devConst [0, 0, 0, 0, 0]) [] 203).1
      = [Datagram.bytes ⟨false, 203, 0⟩] :=
  c10_no_address_masking 203 0 (by decide) (by decide) (by decide)
    (devConst [0, 0, 0, 0, 0]) []
